import Mathlib

/-!
Verification development for the Arrow GLib IPC writer binding
(`c_glib/arrow-glib/writer.cpp`) and the columnar IPC writer protocol it
forwards to.  The wrapper layer (GArrowStreamWriter / GArrowFileWriter and
the `garrow_*` entry points) is embedded from the source file; the
underlying `arrow::ipc` stream/file writers are not part of the source
tree, so they are modelled from the specification of the IPC writer
protocol (message framing, schema negotiation, stream vs. file mode).
-/

namespace ArrowGlib

/-! ### Byte-level framing primitives -/

/-- Modelled from the spec: padded length of a block of `n` bytes once it is
padded to an 8-byte boundary. -/
def pad8Len (n : Nat) : Nat := n + (8 - n % 8) % 8

/-- Modelled from the spec: pad a byte block to an 8-byte boundary with zero
bytes. -/
def pad8 (bs : List Nat) : List Nat :=
  bs ++ List.replicate ((8 - bs.length % 8) % 8) 0

/-- Modelled from the spec: little-endian 4-byte encoding of an int32 length
field. -/
def int32Bytes (n : Nat) : List Nat :=
  [n % 256, n / 256 % 256, n / 65536 % 256, n / 16777216 % 256]

/-- Modelled from the spec: read the little-endian int32 length field at the
start of a byte sequence; missing trailing bytes read as zero. -/
def readInt32 : List Nat → Nat
  | [] => 0
  | [b0] => b0
  | [b0, b1] => b0 + 256 * b1
  | [b0, b1, b2] => b0 + 256 * b1 + 65536 * b2
  | b0 :: b1 :: b2 :: b3 :: _ => b0 + 256 * b1 + 65536 * b2 + 16777216 * b3

/-- Modelled from the spec: one framed IPC message, namely an int32 metadata
length, the metadata bytes padded to an 8-byte boundary, then the body bytes
padded to an 8-byte boundary. -/
def encodeMessage (meta body : List Nat) : List Nat :=
  int32Bytes meta.length ++ pad8 meta ++ pad8 body

/-- Modelled from the spec: the end-of-stream marker, a message whose
metadata length field is zero and which carries no metadata and no body. -/
def eosMessage : List Nat := encodeMessage [] []

/-! ### Data model: fields, schemas, record batches -/

/-- Modelled from the spec: one field descriptor of a schema, holding the
field name (as a byte sequence), a data-type identifier, and nullability. -/
structure Field where
  name : List Nat
  dtype : Nat
  nullable : Bool
deriving DecidableEq, Repr

/-- Modelled from the spec: a schema is an ordered sequence of field
descriptors. -/
abbrev Schema := List Field

/-- Modelled from the spec: a record batch is a fixed-length columnar
snapshot, carrying its schema, the shared row count, one null bitmap per
field and one value buffer per field. -/
structure RecordBatch where
  schema : Schema
  numRows : Nat
  nullBitmaps : List (List Bool)
  buffers : List (List Nat)
deriving DecidableEq, Repr

/-- Modelled from the spec: number of null entries recorded by a null
bitmap. -/
def nullCount (bm : List Bool) : Nat := (bm.filter (fun v => v == false)).length

/-- Byte encoding of one validity bit. -/
def boolByte (b : Bool) : Nat := if b then 1 else 0

/-- Decoding of one validity bit from a byte. -/
def byteBool (n : Nat) : Bool := n != 0

/-! ### Metadata encoders -/

/-- Encoding of one unbounded model byte. -/
def encNat (n : Nat) : List Nat := [n]

/-- Length-prefixed encoding of a list. -/
def encList (enc : α → List Nat) (xs : List α) : List Nat :=
  encNat xs.length ++ (xs.map enc).flatten

/-- Modelled from the spec: encoding of one field descriptor inside a schema
message. -/
def encodeField (f : Field) : List Nat :=
  encList encNat f.name ++ encNat f.dtype ++ encNat (boolByte f.nullable)

/-- Modelled from the spec: encoding of a schema for the stream's first
message. -/
def encodeSchema (s : Schema) : List Nat := encList encodeField s

/-- Modelled from the spec: the batch descriptor metadata block, recording
the row count, the buffer count, the per-field null-bitmap lengths, the
per-field null counts and the per-field value-buffer lengths. -/
def recordBatchMeta (b : RecordBatch) : List Nat :=
  encNat b.numRows
    ++ encNat b.nullBitmaps.length
    ++ encList encNat (b.nullBitmaps.map List.length)
    ++ encList encNat (b.nullBitmaps.map nullCount)
    ++ encList encNat (b.buffers.map List.length)

/-- Modelled from the spec: body layout of a record-batch message, the
per-field null bitmap and value buffer in schema field order, each padded to
the 8-byte boundary before the next begins. -/
def encodeChunkPairs : List (List Nat × List Nat) → List Nat
  | [] => []
  | (bm, buf) :: ps => pad8 bm ++ (pad8 buf ++ encodeChunkPairs ps)

/-- Modelled from the spec: raw body bytes of a record-batch message. -/
def recordBatchBody (b : RecordBatch) : List Nat :=
  encodeChunkPairs ((b.nullBitmaps.map (List.map boolByte)).zip b.buffers)

/-- Modelled from the spec: the schema message emitted on open; it has no
body. -/
def schemaMessage (s : Schema) : List Nat := encodeMessage (encodeSchema s) []

/-- Modelled from the spec: the framed message written for one record
batch. -/
def batchMessage (b : RecordBatch) : List Nat :=
  encodeMessage (recordBatchMeta b) (recordBatchBody b)

/-- Modelled from the spec: expected byte contents of a complete stream-mode
session, one schema message, one message per batch in order, then the
end-of-stream marker. -/
def streamBytes (s : Schema) (bs : List RecordBatch) : List Nat :=
  schemaMessage s ++ ((bs.map batchMessage).flatten ++ eosMessage)

/-- Modelled from the spec: the 4-byte magic marker ending a file-mode
sink. -/
def magicBytes : List Nat := [65, 82, 82, 49]

/-- Modelled from the spec: the encoded footer of file mode, the schema
followed by the ordered index of batch block locations. -/
def encodeFooter (s : Schema) (idx : List (Nat × Nat × Nat)) : List Nat :=
  encodeSchema s
    ++ encList (fun t => encNat t.1 ++ encNat t.2.1 ++ encNat t.2.2) idx

/-- Modelled from the spec: the trailing block of file mode, the encoded
footer, then its int32 length, then the 4-byte magic marker as the final
bytes. -/
def footerBlock (s : Schema) (idx : List (Nat × Nat × Nat)) : List Nat :=
  encodeFooter s idx ++ (int32Bytes (encodeFooter s idx).length ++ magicBytes)

/-! ### Metadata decoders -/

/-- Decoding of one model byte, returning the value and the remaining
bytes. -/
def decNat : List Nat → Option (Nat × List Nat)
  | [] => none
  | b :: bs => some (b, bs)

/-- Counted decoding of a list of items. -/
def decCount (dec : List Nat → Option (α × List Nat)) :
    Nat → List Nat → Option (List α × List Nat)
  | 0, bs => some ([], bs)
  | Nat.succ n, bs =>
    match dec bs with
    | none => none
    | some (x, bs1) =>
      match decCount dec n bs1 with
      | none => none
      | some (xs, bs2) => some (x :: xs, bs2)

/-- Length-prefixed decoding of a list of items. -/
def decList (dec : List Nat → Option (α × List Nat)) (bs : List Nat) :
    Option (List α × List Nat) :=
  match decNat bs with
  | none => none
  | some (n, bs1) => decCount dec n bs1

/-- Modelled from the spec: decoding of the batch descriptor metadata block,
returning the row count, the null-bitmap lengths and the value-buffer
lengths. -/
def decodeBatchMeta (meta : List Nat) : Option (Nat × List Nat × List Nat) :=
  match decNat meta with
  | none => none
  | some (numRows, m1) =>
    match decNat m1 with
    | none => none
    | some (_, m2) =>
      match decList decNat m2 with
      | none => none
      | some (bitLens, m3) =>
        match decList decNat m3 with
        | none => none
        | some (_, m4) =>
          match decList decNat m4 with
          | none => none
          | some (bufLens, _) => some (numRows, bitLens, bufLens)

/-- Modelled from the spec: slicing of a record-batch body into the
per-field null-bitmap and value-buffer chunks, given their recorded
lengths. -/
def decodeChunkPairs : List (Nat × Nat) → List Nat → List (List Nat × List Nat)
  | [], _ => []
  | (lb, lv) :: ps, bytes =>
    (bytes.take lb, (bytes.drop (pad8Len lb)).take lv)
      :: decodeChunkPairs ps ((bytes.drop (pad8Len lb)).drop (pad8Len lv))

/-- Modelled from the spec: decoding of a framed record-batch message, given
the schema carried by the stream's schema message. -/
def decodeBatchMessage (s : Schema) (msg : List Nat) : Option RecordBatch :=
  let metaLen := readInt32 msg
  let rest := msg.drop 4
  match decodeBatchMeta (rest.take metaLen) with
  | none => none
  | some (numRows, bitLens, bufLens) =>
    let chunks := decodeChunkPairs (bitLens.zip bufLens) (rest.drop (pad8Len metaLen))
    some ⟨s, numRows, chunks.map (fun c => c.1.map byteBool), chunks.map (fun c => c.2)⟩

/-! ### Error model and sink -/

/-- Modelled from the spec: the tagged error kinds reported by the writer
protocol. -/
inductive WError where
  | InvalidArgument
  | SchemaMismatch
  | IOError
  | InvalidState
  | UnsupportedSink
deriving DecidableEq, Repr

/-- Modelled from the spec: a byte sink, with its current contents, an
optional capacity after which writes fail with an I/O error, and whether it
can report the current write position. -/
structure Sink where
  bytes : List Nat
  capacity : Option Nat
  seekable : Bool
deriving DecidableEq, Repr

/-- Modelled from the spec: appending bytes to a sink; a failed write
reports an I/O error and leaves the sink unchanged. -/
def Sink.write (s : Sink) (bs : List Nat) : Except WError Unit × Sink :=
  match s.capacity with
  | none => (Except.ok (), ⟨s.bytes ++ bs, s.capacity, s.seekable⟩)
  | some c =>
    if s.bytes.length + bs.length ≤ c then
      (Except.ok (), ⟨s.bytes ++ bs, s.capacity, s.seekable⟩)
    else
      (Except.error WError.IOError, s)

/-! ### Underlying IPC writers (not in the source tree, modelled from the
spec) -/

/-- Modelled from the spec: state of the stream-mode writer, missing from
the source tree (`arrow::ipc::RecordBatchStreamWriter`): the bound schema
and whether the writer has been closed. -/
structure StreamWriter where
  schema : Schema
  closed : Bool
deriving DecidableEq, Repr

/-- Modelled from the spec: state of the file-mode writer, missing from the
source tree (`arrow::ipc::FileWriter`): the bound schema, the closed flag
and the accumulated ordered index of batch block locations. -/
structure FileWriter where
  schema : Schema
  closed : Bool
  index : List (Nat × Nat × Nat)
deriving DecidableEq, Repr

/-- Modelled from the spec: opening a stream writer binds the sink and the
schema and immediately emits the schema message; an empty schema is an
invalid argument, detected before touching the sink. -/
def streamWriterOpen (sink : Sink) (s : Schema) : Except WError StreamWriter × Sink :=
  if s = [] then (Except.error WError.InvalidArgument, sink)
  else
    match sink.write (schemaMessage s) with
    | (Except.ok _, s1) => (Except.ok ⟨s, false⟩, s1)
    | (Except.error e, s1) => (Except.error e, s1)

/-- Modelled from the spec: writing a record batch on a stream writer;
calling on a closed writer is an invalid state, a batch whose schema differs
from the bound schema is a schema mismatch, both detected before touching
the sink. -/
def streamWriterWrite (w : StreamWriter) (sink : Sink) (b : RecordBatch) :
    Except WError StreamWriter × Sink :=
  if w.closed then (Except.error WError.InvalidState, sink)
  else if b.schema = w.schema then
    match sink.write (batchMessage b) with
    | (Except.ok _, s1) => (Except.ok w, s1)
    | (Except.error e, s1) => (Except.error e, s1)
  else (Except.error WError.SchemaMismatch, sink)

/-- Modelled from the spec: closing a stream writer writes the end-of-stream
marker; closing an already closed writer is an invalid state and re-writes
nothing. -/
def streamWriterClose (w : StreamWriter) (sink : Sink) :
    Except WError StreamWriter × Sink :=
  if w.closed then (Except.error WError.InvalidState, sink)
  else
    match sink.write eosMessage with
    | (Except.ok _, s1) => (Except.ok ⟨w.schema, true⟩, s1)
    | (Except.error e, s1) => (Except.error e, s1)

/-- Modelled from the spec: opening a file writer; the sink must support
reporting the current write position. -/
def fileWriterOpen (sink : Sink) (s : Schema) : Except WError FileWriter × Sink :=
  if s = [] then (Except.error WError.InvalidArgument, sink)
  else if sink.seekable = false then (Except.error WError.UnsupportedSink, sink)
  else
    match sink.write (schemaMessage s) with
    | (Except.ok _, s1) => (Except.ok ⟨s, false, []⟩, s1)
    | (Except.error e, s1) => (Except.error e, s1)

/-- Modelled from the spec: writing a record batch on a file writer performs
the stream writer's write and additionally appends the batch block location
(metadata offset read from the sink position, metadata length, padded body
length) to the in-memory index. -/
def fileWriterWrite (w : FileWriter) (sink : Sink) (b : RecordBatch) :
    Except WError FileWriter × Sink :=
  if w.closed then (Except.error WError.InvalidState, sink)
  else if b.schema = w.schema then
    match sink.write (batchMessage b) with
    | (Except.ok _, s1) =>
      (Except.ok ⟨w.schema, false,
        w.index ++ [(sink.bytes.length, (recordBatchMeta b).length,
                     (pad8 (recordBatchBody b)).length)]⟩, s1)
    | (Except.error e, s1) => (Except.error e, s1)
  else (Except.error WError.SchemaMismatch, sink)

/-- Modelled from the spec: closing a file writer performs the stream
writer's close sequence, then appends the encoded footer, its int32 length
and the magic marker as the final bytes. -/
def fileWriterClose (w : FileWriter) (sink : Sink) :
    Except WError FileWriter × Sink :=
  if w.closed then (Except.error WError.InvalidState, sink)
  else
    match sink.write eosMessage with
    | (Except.error e, s1) => (Except.error e, s1)
    | (Except.ok _, s1) =>
      match s1.write (footerBlock w.schema w.index) with
      | (Except.error e, s2) => (Except.error e, s2)
      | (Except.ok _, s2) => (Except.ok ⟨w.schema, true, w.index⟩, s2)

/-! ### The wrapper layer, embedded from `c_glib/arrow-glib/writer.cpp` -/

/-- The writer object stored in the wrapper's private slot: either a plain
stream writer or a file writer, dispatched virtually. -/
inductive IpcWriter where
  | stream (w : StreamWriter)
  | file (w : FileWriter)
deriving DecidableEq, Repr

/-- Bound schema of the stored writer. -/
def IpcWriter.schema : IpcWriter → Schema
  | .stream w => w.schema
  | .file w => w.schema

/-- Closed flag of the stored writer. -/
def IpcWriter.closed : IpcWriter → Bool
  | .stream w => w.closed
  | .file w => w.closed

/-- Virtual dispatch of a record-batch write on the stored writer. -/
def ipcWriteRecordBatch (w : IpcWriter) (sink : Sink) (b : RecordBatch) :
    Except WError IpcWriter × Sink :=
  match w with
  | .stream sw =>
    match streamWriterWrite sw sink b with
    | (Except.ok sw1, s1) => (Except.ok (.stream sw1), s1)
    | (Except.error e, s1) => (Except.error e, s1)
  | .file fw =>
    match fileWriterWrite fw sink b with
    | (Except.ok fw1, s1) => (Except.ok (.file fw1), s1)
    | (Except.error e, s1) => (Except.error e, s1)

/-- Virtual dispatch of close on the stored writer. -/
def ipcClose (w : IpcWriter) (sink : Sink) : Except WError IpcWriter × Sink :=
  match w with
  | .stream sw =>
    match streamWriterClose sw sink with
    | (Except.ok sw1, s1) => (Except.ok (.stream sw1), s1)
    | (Except.error e, s1) => (Except.error e, s1)
  | .file fw =>
    match fileWriterClose fw sink with
    | (Except.ok fw1, s1) => (Except.ok (.file fw1), s1)
    | (Except.error e, s1) => (Except.error e, s1)

/-- The GArrowStreamWriter wrapper object; its private slot holds the shared
underlying writer, stored once through the construct-only property. -/
structure GArrowStreamWriter where
  stream_writer : IpcWriter
deriving DecidableEq, Repr

/-- The GArrowFileWriter wrapper object, a subtype of GArrowStreamWriter
sharing the same private slot. -/
structure GArrowFileWriter where
  parent_instance : GArrowStreamWriter
deriving DecidableEq, Repr

/-- Translation of an underlying status into the binding's gboolean result
and optional error object. -/
def garrow_error_check : Except WError α → Bool × Option WError
  | Except.ok _ => (true, none)
  | Except.error e => (false, some e)

/-- Wrapping of a raw stream writer into a new wrapper handle. -/
def garrow_stream_writer_new_raw (w : StreamWriter) : GArrowStreamWriter :=
  ⟨IpcWriter.stream w⟩

/-- Reading the wrapper handle's private slot. -/
def garrow_stream_writer_get_raw (h : GArrowStreamWriter) : IpcWriter :=
  h.stream_writer

/-- Wrapping of a raw file writer into a new file-writer handle; the raw
writer is stored through the same stream-writer slot. -/
def garrow_file_writer_new_raw (w : FileWriter) : GArrowFileWriter :=
  ⟨⟨IpcWriter.file w⟩⟩

/-- Downcast of the stored writer with a checked runtime cast: a null result
when the stored writer is not actually a file writer. -/
def garrow_file_writer_get_raw (h : GArrowFileWriter) : Option FileWriter :=
  match garrow_stream_writer_get_raw h.parent_instance with
  | IpcWriter.file w => some w
  | IpcWriter.stream _ => none

/-- The constructor entry point: opens the underlying stream writer and
returns either a new handle or null together with the translated error. -/
def garrow_stream_writer_new (sink : Sink) (s : Schema) :
    (Option GArrowStreamWriter × Option WError) × Sink :=
  match streamWriterOpen sink s with
  | (Except.ok w, s1) => ((some (garrow_stream_writer_new_raw w), none), s1)
  | (Except.error e, s1) => ((none, some e), s1)

/-- The file-writer constructor entry point. -/
def garrow_file_writer_new (sink : Sink) (s : Schema) :
    (Option GArrowFileWriter × Option WError) × Sink :=
  match fileWriterOpen sink s with
  | (Except.ok w, s1) => ((some (garrow_file_writer_new_raw w), none), s1)
  | (Except.error e, s1) => ((none, some e), s1)

/-- The write entry point: forwards to the underlying writer and translates
the status; on error the handle and the sink are unchanged. -/
def garrow_stream_writer_write_record_batch (h : GArrowStreamWriter)
    (sink : Sink) (b : RecordBatch) :
    (Bool × Option WError) × GArrowStreamWriter × Sink :=
  match ipcWriteRecordBatch (garrow_stream_writer_get_raw h) sink b with
  | (Except.ok w1, s1) => ((true, none), ⟨w1⟩, s1)
  | (Except.error e, s1) => ((false, some e), h, s1)

/-- The close entry point. -/
def garrow_stream_writer_close (h : GArrowStreamWriter) (sink : Sink) :
    (Bool × Option WError) × GArrowStreamWriter × Sink :=
  match ipcClose (garrow_stream_writer_get_raw h) sink with
  | (Except.ok w1, s1) => ((true, none), ⟨w1⟩, s1)
  | (Except.error e, s1) => ((false, some e), h, s1)

/-- Finalization of a wrapper handle: drops the reference to the underlying
writer and performs no write and no flush on the sink. -/
def garrow_stream_writer_finalize (_h : GArrowStreamWriter) (sink : Sink) : Sink :=
  sink

/-! ### Whole sessions -/

/-- A sequence of write calls through the wrapper, stopping at the first
failure. -/
def writeBatches :
    GArrowStreamWriter → Sink → List RecordBatch →
      (Bool × Option WError) × GArrowStreamWriter × Sink
  | h, sink, [] => ((true, none), h, sink)
  | h, sink, b :: bs =>
    match garrow_stream_writer_write_record_batch h sink b with
    | ((true, _), h1, s1) => writeBatches h1 s1 bs
    | ((false, e), h1, s1) => ((false, e), h1, s1)

/-- A complete stream-mode session through the wrapper: open, write every
batch, close; the final sink when every call succeeded. -/
def runStreamSession (sink : Sink) (s : Schema) (bs : List RecordBatch) :
    Option Sink :=
  match garrow_stream_writer_new sink s with
  | ((some h, _), s1) =>
    match writeBatches h s1 bs with
    | ((true, _), h1, s2) =>
      match garrow_stream_writer_close h1 s2 with
      | ((true, _), _, s3) => some s3
      | ((false, _), _, _) => none
    | ((false, _), _, _) => none
  | ((none, _), _) => none

/-- A complete file-mode session through the wrapper. -/
def runFileSession (sink : Sink) (s : Schema) (bs : List RecordBatch) :
    Option Sink :=
  match garrow_file_writer_new sink s with
  | ((some h, _), s1) =>
    match writeBatches h.parent_instance s1 bs with
    | ((true, _), h1, s2) =>
      match garrow_stream_writer_close h1 s2 with
      | ((true, _), _, s3) => some s3
      | ((false, _), _, _) => none
    | ((false, _), _, _) => none
  | ((none, _), _) => none

/-- An aborted stream-mode session: open, write every batch, then drop the
writer through finalize without calling close. -/
def runAbortSession (sink : Sink) (s : Schema) (bs : List RecordBatch) :
    Option Sink :=
  match garrow_stream_writer_new sink s with
  | ((some h, _), s1) =>
    match writeBatches h s1 bs with
    | ((true, _), h1, s2) => some (garrow_stream_writer_finalize h1 s2)
    | ((false, _), _, _) => none
  | ((none, _), _) => none

/-- Modelled from the spec: the expected ordered index of batch block
locations recorded by a file writer that starts writing at the given sink
position. -/
def expectedIndex : Nat → List RecordBatch → List (Nat × Nat × Nat)
  | _, [] => []
  | base, b :: bs =>
    (base, (recordBatchMeta b).length, (pad8 (recordBatchBody b)).length)
      :: expectedIndex (base + (batchMessage b).length) bs

/-! ### Framing lemmas -/

theorem length_int32Bytes (n : Nat) : (int32Bytes n).length = 4 := rfl

theorem length_pad8 (bs : List Nat) : (pad8 bs).length = pad8Len bs.length := by
  simp [pad8, pad8Len]

theorem dvd_length_pad8 (bs : List Nat) : 8 ∣ (pad8 bs).length := by
  rw [length_pad8]
  apply Nat.dvd_of_mod_eq_zero
  unfold pad8Len
  omega

theorem readInt32_int32Bytes (n : Nat) (r : List Nat) :
    readInt32 (int32Bytes n ++ r) = n % 4294967296 := by
  simp [readInt32, int32Bytes]
  omega

theorem take_pad8_append (xs r : List Nat) : (pad8 xs ++ r).take xs.length = xs := by
  rw [pad8, List.append_assoc]
  exact List.take_left xs _

theorem drop_pad8_append (xs r : List Nat) :
    (pad8 xs ++ r).drop (pad8Len xs.length) = r :=
  List.drop_left' (length_pad8 xs)

/-! ### Decoder round-trip lemmas -/

theorem decNat_enc (n : Nat) (r : List Nat) : decNat (encNat n ++ r) = some (n, r) := rfl

theorem decCount_enc (dec : List Nat → Option (α × List Nat)) (enc : α → List Nat)
    (h : ∀ x r, dec (enc x ++ r) = some (x, r)) :
    ∀ (xs : List α) (r : List Nat),
      decCount dec xs.length ((xs.map enc).flatten ++ r) = some (xs, r) := by
  intro xs
  induction xs with
  | nil => intro r; simp [decCount]
  | cons x xs ih =>
    intro r
    simp only [List.map_cons, List.flatten_cons, List.length_cons, List.append_assoc,
      decCount, h, ih]

theorem decList_enc (dec : List Nat → Option (α × List Nat)) (enc : α → List Nat)
    (h : ∀ x r, dec (enc x ++ r) = some (x, r)) (xs : List α) (r : List Nat) :
    decList dec (encList enc xs ++ r) = some (xs, r) := by
  simp only [encList, encNat, List.append_assoc, List.cons_append, List.nil_append,
    decList, decNat]
  exact decCount_enc dec enc h xs r

theorem decListNat_enc (xs : List Nat) (r : List Nat) :
    decList decNat (encList encNat xs ++ r) = some (xs, r) :=
  decList_enc decNat encNat (fun _ _ => rfl) xs r

theorem decodeBatchMeta_enc (b : RecordBatch) (r : List Nat) :
    decodeBatchMeta (recordBatchMeta b ++ r) =
      some (b.numRows, b.nullBitmaps.map List.length, b.buffers.map List.length) := by
  simp only [recordBatchMeta, List.append_assoc, decodeBatchMeta, decNat_enc,
    decListNat_enc]

theorem decodeChunkPairs_enc :
    ∀ (ps : List (List Nat × List Nat)) (r : List Nat),
      decodeChunkPairs (ps.map (fun p => (p.1.length, p.2.length)))
        (encodeChunkPairs ps ++ r) = ps := by
  intro ps
  induction ps with
  | nil => intro r; simp [decodeChunkPairs]
  | cons p ps ih =>
    intro r
    obtain ⟨bm, buf⟩ := p
    simp only [List.map_cons, encodeChunkPairs, List.append_assoc, decodeChunkPairs]
    rw [take_pad8_append, drop_pad8_append, take_pad8_append, drop_pad8_append, ih]

theorem byteBool_boolByte (v : Bool) : byteBool (boolByte v) = v := by
  cases v <;> rfl

theorem map_boolByte_byteBool (l : List Bool) :
    (l.map boolByte).map byteBool = l := by
  simp [List.map_map, Function.comp_def, byteBool_boolByte]

theorem decode_encode_batch (b : RecordBatch)
    (hwf : b.nullBitmaps.length = b.buffers.length)
    (hlen : (recordBatchMeta b).length < 4294967296) :
    decodeBatchMessage b.schema (batchMessage b) = some b := by
  obtain ⟨s, n, bms, bufs⟩ := b
  simp only [RecordBatch.nullBitmaps, RecordBatch.buffers] at hwf
  have hread : readInt32 (batchMessage ⟨s, n, bms, bufs⟩) =
      (recordBatchMeta ⟨s, n, bms, bufs⟩).length := by
    rw [batchMessage, encodeMessage, List.append_assoc, readInt32_int32Bytes,
      Nat.mod_eq_of_lt hlen]
  have hdrop4 : (batchMessage ⟨s, n, bms, bufs⟩).drop 4 =
      pad8 (recordBatchMeta ⟨s, n, bms, bufs⟩) ++
        pad8 (recordBatchBody ⟨s, n, bms, bufs⟩) := by
    rw [batchMessage, encodeMessage, List.append_assoc]
    exact List.drop_left' (length_int32Bytes _)
  have hmeta : decodeBatchMeta (recordBatchMeta ⟨s, n, bms, bufs⟩) =
      some (n, bms.map List.length, bufs.map List.length) := by
    have h := decodeBatchMeta_enc ⟨s, n, bms, bufs⟩ []
    rwa [List.append_nil] at h
  have hlens : (bms.map List.length).zip (bufs.map List.length) =
      ((bms.map (List.map boolByte)).zip bufs).map (fun p => (p.1.length, p.2.length)) := by
    have h1 : bms.map List.length = (bms.map (List.map boolByte)).map List.length := by
      simp [List.map_map, Function.comp_def]
    conv_rhs => rw [show (fun p : List Nat × List Nat => (p.1.length, p.2.length)) =
      Prod.map List.length List.length from rfl]
    rw [h1, ← List.zip_map]
  have hchunks : decodeChunkPairs ((bms.map List.length).zip (bufs.map List.length))
      (pad8 (recordBatchBody ⟨s, n, bms, bufs⟩)) =
        (bms.map (List.map boolByte)).zip bufs := by
    rw [hlens, pad8]
    exact decodeChunkPairs_enc _ _
  have hle : (bms.map (List.map boolByte)).length ≤ bufs.length := by
    simp [hwf]
  have hfst : ((bms.map (List.map boolByte)).zip bufs).map (fun c => c.1.map byteBool)
      = bms := by
    have h2 : ((bms.map (List.map boolByte)).zip bufs).map (fun c => c.1.map byteBool) =
        (((bms.map (List.map boolByte)).zip bufs).map Prod.fst).map
          (List.map byteBool) := by
      rw [List.map_map]
      rfl
    rw [h2, List.map_fst_zip _ _ hle]
    simp [List.map_map, Function.comp_def, byteBool_boolByte]
  have hsnd : ((bms.map (List.map boolByte)).zip bufs).map (fun c => c.2) = bufs := by
    have hge : bufs.length ≤ (bms.map (List.map boolByte)).length := by
      simp [hwf]
    exact List.map_snd_zip _ _ hge
  simp only [decodeBatchMessage, hread, hdrop4, List.take_left' rfl, hmeta]
  rw [show (pad8 (recordBatchMeta ⟨s, n, bms, bufs⟩) ++
      pad8 (recordBatchBody ⟨s, n, bms, bufs⟩)).take
        (recordBatchMeta ⟨s, n, bms, bufs⟩).length =
      recordBatchMeta ⟨s, n, bms, bufs⟩ from take_pad8_append _ _]
  simp only [hmeta, drop_pad8_append, hchunks, hfst, hsnd]

/-! ### Session lemmas -/

theorem sink_write_none (bytes : List Nat) (seek : Bool) (bs : List Nat) :
    Sink.write ⟨bytes, none, seek⟩ bs = (Except.ok (), ⟨bytes ++ bs, none, seek⟩) := by
  simp [Sink.write]

theorem garrow_new_ok (bytes : List Nat) (seek : Bool) (s : Schema) (hs : s ≠ []) :
    garrow_stream_writer_new ⟨bytes, none, seek⟩ s =
      ((some ⟨IpcWriter.stream ⟨s, false⟩⟩, none),
        ⟨bytes ++ schemaMessage s, none, seek⟩) := by
  simp [garrow_stream_writer_new, streamWriterOpen, hs, sink_write_none,
    garrow_stream_writer_new_raw]

theorem garrow_file_new_ok (bytes : List Nat) (s : Schema) (hs : s ≠ []) :
    garrow_file_writer_new ⟨bytes, none, true⟩ s =
      ((some ⟨⟨IpcWriter.file ⟨s, false, []⟩⟩⟩, none),
        ⟨bytes ++ schemaMessage s, none, true⟩) := by
  simp [garrow_file_writer_new, fileWriterOpen, hs, sink_write_none,
    garrow_file_writer_new_raw]

theorem garrow_write_stream_ok (s : Schema) (bytes : List Nat) (seek : Bool)
    (b : RecordBatch) (hb : b.schema = s) :
    garrow_stream_writer_write_record_batch ⟨IpcWriter.stream ⟨s, false⟩⟩
        ⟨bytes, none, seek⟩ b =
      ((true, none), ⟨IpcWriter.stream ⟨s, false⟩⟩,
        ⟨bytes ++ batchMessage b, none, seek⟩) := by
  simp [garrow_stream_writer_write_record_batch, garrow_stream_writer_get_raw,
    ipcWriteRecordBatch, streamWriterWrite, hb, sink_write_none]

theorem garrow_write_file_ok (s : Schema) (idx : List (Nat × Nat × Nat))
    (bytes : List Nat) (seek : Bool) (b : RecordBatch) (hb : b.schema = s) :
    garrow_stream_writer_write_record_batch ⟨IpcWriter.file ⟨s, false, idx⟩⟩
        ⟨bytes, none, seek⟩ b =
      ((true, none),
        ⟨IpcWriter.file ⟨s, false,
          idx ++ [(bytes.length, (recordBatchMeta b).length,
                   (pad8 (recordBatchBody b)).length)]⟩⟩,
        ⟨bytes ++ batchMessage b, none, seek⟩) := by
  simp [garrow_stream_writer_write_record_batch, garrow_stream_writer_get_raw,
    ipcWriteRecordBatch, fileWriterWrite, hb, sink_write_none]

theorem garrow_close_stream_ok (s : Schema) (bytes : List Nat) (seek : Bool) :
    garrow_stream_writer_close ⟨IpcWriter.stream ⟨s, false⟩⟩ ⟨bytes, none, seek⟩ =
      ((true, none), ⟨IpcWriter.stream ⟨s, true⟩⟩,
        ⟨bytes ++ eosMessage, none, seek⟩) := by
  simp [garrow_stream_writer_close, garrow_stream_writer_get_raw, ipcClose,
    streamWriterClose, sink_write_none]

theorem garrow_close_file_ok (s : Schema) (idx : List (Nat × Nat × Nat))
    (bytes : List Nat) (seek : Bool) :
    garrow_stream_writer_close ⟨IpcWriter.file ⟨s, false, idx⟩⟩ ⟨bytes, none, seek⟩ =
      ((true, none), ⟨IpcWriter.file ⟨s, true, idx⟩⟩,
        ⟨bytes ++ (eosMessage ++ footerBlock s idx), none, seek⟩) := by
  simp [garrow_stream_writer_close, garrow_stream_writer_get_raw, ipcClose,
    fileWriterClose, sink_write_none, List.append_assoc]

theorem writeBatches_stream (s : Schema) (bs : List RecordBatch) :
    ∀ (bytes : List Nat) (seek : Bool), (∀ b ∈ bs, b.schema = s) →
      writeBatches ⟨IpcWriter.stream ⟨s, false⟩⟩ ⟨bytes, none, seek⟩ bs =
        ((true, none), ⟨IpcWriter.stream ⟨s, false⟩⟩,
          ⟨bytes ++ (bs.map batchMessage).flatten, none, seek⟩) := by
  induction bs with
  | nil => intro bytes seek hconf; simp [writeBatches]
  | cons b bs ih =>
    intro bytes seek hconf
    simp only [writeBatches, garrow_write_stream_ok s bytes seek b (hconf b (by simp)),
      ih (bytes ++ batchMessage b) seek (fun x hx => hconf x (by simp [hx]))]
    simp [List.append_assoc]

theorem writeBatches_file (s : Schema) (bs : List RecordBatch) :
    ∀ (bytes : List Nat) (seek : Bool) (idx : List (Nat × Nat × Nat)),
      (∀ b ∈ bs, b.schema = s) →
      writeBatches ⟨IpcWriter.file ⟨s, false, idx⟩⟩ ⟨bytes, none, seek⟩ bs =
        ((true, none),
          ⟨IpcWriter.file ⟨s, false, idx ++ expectedIndex bytes.length bs⟩⟩,
          ⟨bytes ++ (bs.map batchMessage).flatten, none, seek⟩) := by
  induction bs with
  | nil => intro bytes seek idx hconf; simp [writeBatches, expectedIndex]
  | cons b bs ih =>
    intro bytes seek idx hconf
    simp only [writeBatches, garrow_write_file_ok s idx bytes seek b (hconf b (by simp)),
      ih (bytes ++ batchMessage b) seek
        (idx ++ [(bytes.length, (recordBatchMeta b).length,
                  (pad8 (recordBatchBody b)).length)])
        (fun x hx => hconf x (by simp [hx]))]
    simp [expectedIndex, List.append_assoc, batchMessage]

theorem runStreamSession_eq (bytes : List Nat) (seek : Bool) (s : Schema)
    (bs : List RecordBatch) (hs : s ≠ []) (hconf : ∀ b ∈ bs, b.schema = s) :
    runStreamSession ⟨bytes, none, seek⟩ s bs =
      some ⟨bytes ++ streamBytes s bs, none, seek⟩ := by
  simp only [runStreamSession, garrow_new_ok bytes seek s hs,
    writeBatches_stream s bs (bytes ++ schemaMessage s) seek hconf,
    garrow_close_stream_ok s ((bytes ++ schemaMessage s) ++ (bs.map batchMessage).flatten) seek]
  simp [streamBytes, List.append_assoc]

theorem runFileSession_eq (bytes : List Nat) (s : Schema)
    (bs : List RecordBatch) (hs : s ≠ []) (hconf : ∀ b ∈ bs, b.schema = s) :
    runFileSession ⟨bytes, none, true⟩ s bs =
      some ⟨bytes ++ (streamBytes s bs ++
        footerBlock s (expectedIndex (bytes ++ schemaMessage s).length bs)),
        none, true⟩ := by
  simp only [runFileSession, garrow_file_new_ok bytes s hs,
    writeBatches_file s bs (bytes ++ schemaMessage s) true [] hconf]
  rw [show (bytes ++ schemaMessage s).length = bytes.length + (schemaMessage s).length
    from List.length_append _ _]
  simp only [List.nil_append]
  rw [garrow_close_file_ok s (expectedIndex (bytes.length + (schemaMessage s).length) bs)
    ((bytes ++ schemaMessage s) ++ (List.map batchMessage bs).flatten) true]
  simp [streamBytes, List.append_assoc]

theorem runAbortSession_eq (bytes : List Nat) (seek : Bool) (s : Schema)
    (bs : List RecordBatch) (hs : s ≠ []) (hconf : ∀ b ∈ bs, b.schema = s) :
    runAbortSession ⟨bytes, none, seek⟩ s bs =
      some ⟨bytes ++ (schemaMessage s ++ (bs.map batchMessage).flatten),
        none, seek⟩ := by
  simp only [runAbortSession, garrow_new_ok bytes seek s hs,
    writeBatches_stream s bs (bytes ++ schemaMessage s) seek hconf]
  simp [garrow_stream_writer_finalize, List.append_assoc]

/-! ### State and frame helper lemmas -/

theorem length_expectedIndex :
    ∀ (base : Nat) (bs : List RecordBatch), (expectedIndex base bs).length = bs.length := by
  intro base bs
  induction bs generalizing base with
  | nil => rfl
  | cons b bs ih => simp [expectedIndex, ih]

theorem sink_write_ok (s : Sink) (bs : List Nat) (u : Unit) (s1 : Sink)
    (h : s.write bs = (Except.ok u, s1)) :
    s1 = ⟨s.bytes ++ bs, s.capacity, s.seekable⟩ := by
  rcases hc : s.capacity with _ | c
  · simp only [Sink.write, hc] at h
    injection h with h1 h2
    exact h2.symm
  · simp only [Sink.write, hc] at h
    by_cases hle : s.bytes.length + bs.length ≤ c
    · rw [if_pos hle] at h
      injection h with h1 h2
      exact h2.symm
    · rw [if_neg hle] at h
      injection h with h1 h2
      exact absurd h1 (by simp)

theorem garrow_write_mismatch (h : GArrowStreamWriter) (sink : Sink)
    (b : RecordBatch) (hopen : h.stream_writer.closed = false)
    (hmis : b.schema ≠ h.stream_writer.schema) :
    garrow_stream_writer_write_record_batch h sink b =
      ((false, some WError.SchemaMismatch), h, sink) := by
  obtain ⟨w⟩ := h
  cases w with
  | stream sw =>
    simp only [IpcWriter.closed] at hopen
    simp only [IpcWriter.schema] at hmis
    simp [garrow_stream_writer_write_record_batch, garrow_stream_writer_get_raw,
      ipcWriteRecordBatch, streamWriterWrite, hopen, hmis]
  | file fw =>
    simp only [IpcWriter.closed] at hopen
    simp only [IpcWriter.schema] at hmis
    simp [garrow_stream_writer_write_record_batch, garrow_stream_writer_get_raw,
      ipcWriteRecordBatch, fileWriterWrite, hopen, hmis]

theorem garrow_write_closed (h : GArrowStreamWriter) (sink : Sink)
    (b : RecordBatch) (hcl : h.stream_writer.closed = true) :
    garrow_stream_writer_write_record_batch h sink b =
      ((false, some WError.InvalidState), h, sink) := by
  obtain ⟨w⟩ := h
  cases w with
  | stream sw =>
    simp only [IpcWriter.closed] at hcl
    simp [garrow_stream_writer_write_record_batch, garrow_stream_writer_get_raw,
      ipcWriteRecordBatch, streamWriterWrite, hcl]
  | file fw =>
    simp only [IpcWriter.closed] at hcl
    simp [garrow_stream_writer_write_record_batch, garrow_stream_writer_get_raw,
      ipcWriteRecordBatch, fileWriterWrite, hcl]

theorem garrow_close_closed (h : GArrowStreamWriter) (sink : Sink)
    (hcl : h.stream_writer.closed = true) :
    garrow_stream_writer_close h sink =
      ((false, some WError.InvalidState), h, sink) := by
  obtain ⟨w⟩ := h
  cases w with
  | stream sw =>
    simp only [IpcWriter.closed] at hcl
    simp [garrow_stream_writer_close, garrow_stream_writer_get_raw, ipcClose,
      streamWriterClose, hcl]
  | file fw =>
    simp only [IpcWriter.closed] at hcl
    simp [garrow_stream_writer_close, garrow_stream_writer_get_raw, ipcClose,
      fileWriterClose, hcl]

theorem garrow_close_ok_closed (h h1 : GArrowStreamWriter) (sink sink1 : Sink)
    (hclose : garrow_stream_writer_close h sink = ((true, none), h1, sink1)) :
    h1.stream_writer.closed = true := by
  obtain ⟨w⟩ := h
  cases w with
  | stream sw =>
    simp only [garrow_stream_writer_close, garrow_stream_writer_get_raw, ipcClose,
      streamWriterClose] at hclose
    by_cases hc : sw.closed
    · simp [hc] at hclose
    · rw [if_neg hc] at hclose
      rcases hw : sink.write eosMessage with ⟨res, s1⟩
      rw [hw] at hclose
      cases res with
      | ok u =>
        injection hclose with h1eq h2eq
        injection h2eq with h2a h2b
        rw [← h2a]
        rfl
      | error e => simp at hclose
  | file fw =>
    simp only [garrow_stream_writer_close, garrow_stream_writer_get_raw, ipcClose,
      fileWriterClose] at hclose
    by_cases hc : fw.closed
    · simp [hc] at hclose
    · rw [if_neg hc] at hclose
      rcases hw : sink.write eosMessage with ⟨res, s1⟩
      simp only [hw] at hclose
      cases res with
      | ok u =>
        rcases hw2 : s1.write (footerBlock fw.schema fw.index) with ⟨res2, s2⟩
        simp only [hw2] at hclose
        cases res2 with
        | ok u2 =>
          simp only [] at hclose
          injection hclose with h1eq h2eq
          injection h2eq with h2a h2b
          rw [← h2a]
          rfl
        | error e => simp at hclose
      | error e => simp at hclose

theorem garrow_write_schema (h : GArrowStreamWriter) (sink : Sink) (b : RecordBatch) :
    (garrow_stream_writer_write_record_batch h sink b).2.1.stream_writer.schema =
      h.stream_writer.schema := by
  obtain ⟨w⟩ := h
  cases w with
  | stream sw =>
    simp only [garrow_stream_writer_write_record_batch, garrow_stream_writer_get_raw,
      ipcWriteRecordBatch, streamWriterWrite]
    by_cases hc : sw.closed
    · simp [hc]
    · rw [if_neg hc]
      by_cases hb : b.schema = sw.schema
      · rw [if_pos hb]
        rcases hw : sink.write (batchMessage b) with ⟨res, s1⟩
        cases res <;> simp [IpcWriter.schema]
      · simp [hb]
  | file fw =>
    simp only [garrow_stream_writer_write_record_batch, garrow_stream_writer_get_raw,
      ipcWriteRecordBatch, fileWriterWrite]
    by_cases hc : fw.closed
    · simp [hc]
    · rw [if_neg hc]
      by_cases hb : b.schema = fw.schema
      · rw [if_pos hb]
        rcases hw : sink.write (batchMessage b) with ⟨res, s1⟩
        cases res <;> simp [IpcWriter.schema]
      · simp [hb]

theorem garrow_close_schema (h : GArrowStreamWriter) (sink : Sink) :
    (garrow_stream_writer_close h sink).2.1.stream_writer.schema =
      h.stream_writer.schema := by
  obtain ⟨w⟩ := h
  cases w with
  | stream sw =>
    simp only [garrow_stream_writer_close, garrow_stream_writer_get_raw, ipcClose,
      streamWriterClose]
    by_cases hc : sw.closed
    · simp [hc]
    · rw [if_neg hc]
      rcases hw : sink.write eosMessage with ⟨res, s1⟩
      cases res <;> simp [IpcWriter.schema]
  | file fw =>
    simp only [garrow_stream_writer_close, garrow_stream_writer_get_raw, ipcClose,
      fileWriterClose]
    by_cases hc : fw.closed
    · simp [hc]
    · rw [if_neg hc]
      rcases hw : sink.write eosMessage with ⟨res, s1⟩
      cases res with
      | ok u =>
        rcases hw2 : s1.write (footerBlock fw.schema fw.index) with ⟨res2, s2⟩
        simp only [hw2]
        cases res2 <;> simp [IpcWriter.schema]
      | error e => simp [IpcWriter.schema]

theorem garrow_new_some_schema (sink : Sink) (s : Schema) (h0 : GArrowStreamWriter)
    (h : (garrow_stream_writer_new sink s).1.1 = some h0) :
    h0.stream_writer.schema = s := by
  simp only [garrow_stream_writer_new, streamWriterOpen] at h
  by_cases hs : s = []
  · simp [hs] at h
  · rw [if_neg hs] at h
    rcases hw : sink.write (schemaMessage s) with ⟨res, s1⟩
    rw [hw] at h
    cases res with
    | ok u =>
      simp only [garrow_stream_writer_new_raw] at h
      injection h with heq
      rw [← heq]
      rfl
    | error e => simp at h

/-! ### Claim theorems -/

/-- C1 (counterexample to the claim as stated): for the empty schema the
session does not succeed; opening the writer fails with an invalid-argument
error before anything is written, so the output cannot consist of a schema
message, batch messages and an end-of-stream marker. -/
theorem c1_counterexample :
    runStreamSession ⟨[], none, true⟩ [] [] = none ∧
    garrow_stream_writer_new ⟨[], none, true⟩ [] =
      ((none, some WError.InvalidArgument), ⟨[], none, true⟩) := by
  exact ⟨rfl, rfl⟩

/-- C1 (amended to non-empty schemas): for every non-empty schema and every
sequence of batches conforming to it, open, write each batch, close succeeds,
and the sink holds exactly one schema message, the batch messages in order,
and one end-of-stream marker; in file mode the footer block follows the
marker. -/
theorem c1_sessions_message_layout (bytes : List Nat) (seek : Bool) (s : Schema)
    (bs : List RecordBatch) (hs : s ≠ []) (hconf : ∀ b ∈ bs, b.schema = s) :
    runStreamSession ⟨bytes, none, seek⟩ s bs =
      some ⟨bytes ++ streamBytes s bs, none, seek⟩ ∧
    runFileSession ⟨bytes, none, true⟩ s bs =
      some ⟨bytes ++ (streamBytes s bs ++
        footerBlock s (expectedIndex (bytes ++ schemaMessage s).length bs)),
        none, true⟩ :=
  ⟨runStreamSession_eq bytes seek s bs hs hconf,
   runFileSession_eq bytes s bs hs hconf⟩

/-- C1 witness: a concrete one-batch session evaluates to exactly the
expected message sequence. -/
theorem c1_witness :
    runStreamSession ⟨[], none, true⟩ [⟨[97], 0, true⟩]
        [⟨[⟨[97], 0, true⟩], 2, [[true, false]], [[5, 6]]⟩] =
      some ⟨[] ++ streamBytes [⟨[97], 0, true⟩]
        [⟨[⟨[97], 0, true⟩], 2, [[true, false]], [[5, 6]]⟩], none, true⟩ ∧
    runFileSession ⟨[], none, true⟩ [⟨[97], 0, true⟩]
        [⟨[⟨[97], 0, true⟩], 2, [[true, false]], [[5, 6]]⟩] =
      some ⟨[] ++ (streamBytes [⟨[97], 0, true⟩]
          [⟨[⟨[97], 0, true⟩], 2, [[true, false]], [[5, 6]]⟩] ++
        footerBlock [⟨[97], 0, true⟩]
          (expectedIndex ([] ++ schemaMessage [⟨[97], 0, true⟩]).length
            [⟨[⟨[97], 0, true⟩], 2, [[true, false]], [[5, 6]]⟩])), none, true⟩ :=
  c1_sessions_message_layout [] true [⟨[97], 0, true⟩]
    [⟨[⟨[97], 0, true⟩], 2, [[true, false]], [[5, 6]]⟩] (by decide) (by decide)

/-- C2: on an open writer, a batch whose schema differs from the bound
schema fails with a schema mismatch, the handle is unchanged and the sink is
returned unchanged, with no additional bytes. -/
theorem c2_schema_mismatch_frame (h : GArrowStreamWriter) (sink : Sink)
    (b : RecordBatch) (hopen : h.stream_writer.closed = false)
    (hmis : b.schema ≠ h.stream_writer.schema) :
    garrow_stream_writer_write_record_batch h sink b =
      ((false, some WError.SchemaMismatch), h, sink) :=
  garrow_write_mismatch h sink b hopen hmis

/-- C2 witness: a concrete mismatching write fails and leaves the sink
bytes untouched. -/
theorem c2_witness :
    garrow_stream_writer_write_record_batch
        ⟨IpcWriter.stream ⟨[⟨[97], 0, true⟩], false⟩⟩ ⟨[1, 2, 3], none, true⟩
        ⟨[], 0, [], []⟩ =
      ((false, some WError.SchemaMismatch),
        ⟨IpcWriter.stream ⟨[⟨[97], 0, true⟩], false⟩⟩, ⟨[1, 2, 3], none, true⟩) :=
  c2_schema_mismatch_frame ⟨IpcWriter.stream ⟨[⟨[97], 0, true⟩], false⟩⟩
    ⟨[1, 2, 3], none, true⟩ ⟨[], 0, [], []⟩ (by decide) (by decide)

/-- C3: once close has succeeded, any further write or close on the
resulting writer fails with an invalid-state error and returns the sink
unchanged, so the end-of-stream marker is never re-written. -/
theorem c3_after_close_invalid_state (h h1 : GArrowStreamWriter)
    (sink sink1 s2 : Sink) (b : RecordBatch)
    (hclose : garrow_stream_writer_close h sink = ((true, none), h1, sink1)) :
    garrow_stream_writer_write_record_batch h1 s2 b =
      ((false, some WError.InvalidState), h1, s2) ∧
    garrow_stream_writer_close h1 s2 =
      ((false, some WError.InvalidState), h1, s2) :=
  ⟨garrow_write_closed h1 s2 b (garrow_close_ok_closed h h1 sink sink1 hclose),
   garrow_close_closed h1 s2 (garrow_close_ok_closed h h1 sink sink1 hclose)⟩

/-- C3 witness: after a concrete successful close, a write and a second
close both fail with an invalid-state error. -/
theorem c3_witness :
    garrow_stream_writer_write_record_batch
        ⟨IpcWriter.stream ⟨[⟨[97], 0, true⟩], true⟩⟩ ⟨[7], none, true⟩
        ⟨[⟨[97], 0, true⟩], 0, [[]], [[]]⟩ =
      ((false, some WError.InvalidState),
        ⟨IpcWriter.stream ⟨[⟨[97], 0, true⟩], true⟩⟩, ⟨[7], none, true⟩) ∧
    garrow_stream_writer_close ⟨IpcWriter.stream ⟨[⟨[97], 0, true⟩], true⟩⟩
        ⟨[7], none, true⟩ =
      ((false, some WError.InvalidState),
        ⟨IpcWriter.stream ⟨[⟨[97], 0, true⟩], true⟩⟩, ⟨[7], none, true⟩) :=
  c3_after_close_invalid_state ⟨IpcWriter.stream ⟨[⟨[97], 0, true⟩], false⟩⟩
    ⟨IpcWriter.stream ⟨[⟨[97], 0, true⟩], true⟩⟩ ⟨[], none, true⟩
    ⟨eosMessage, none, true⟩ ⟨[7], none, true⟩
    ⟨[⟨[97], 0, true⟩], 0, [[]], [[]]⟩ (by decide)

/-- C4: a file-mode session appends, after the end-of-stream marker, the
encoded footer holding the schema and one index entry per batch in write
order, then the int32 footer length and the magic marker as the final
bytes; and the prefix through the marker equals the stream-mode output for
the same schema and batches. -/
theorem c4_file_mode_footer (bytes : List Nat) (s : Schema) (bs : List RecordBatch)
    (hs : s ≠ []) (hconf : ∀ b ∈ bs, b.schema = s) :
    runFileSession ⟨bytes, none, true⟩ s bs =
      some ⟨bytes ++ (streamBytes s bs ++
        footerBlock s (expectedIndex (bytes ++ schemaMessage s).length bs)),
        none, true⟩ ∧
    (expectedIndex (bytes ++ schemaMessage s).length bs).length = bs.length ∧
    footerBlock s (expectedIndex (bytes ++ schemaMessage s).length bs) =
      encodeFooter s (expectedIndex (bytes ++ schemaMessage s).length bs) ++
        (int32Bytes (encodeFooter s
          (expectedIndex (bytes ++ schemaMessage s).length bs)).length ++
          magicBytes) ∧
    runStreamSession ⟨bytes, none, true⟩ s bs =
      some ⟨bytes ++ streamBytes s bs, none, true⟩ :=
  ⟨runFileSession_eq bytes s bs hs hconf,
   length_expectedIndex _ _, rfl,
   runStreamSession_eq bytes true s bs hs hconf⟩

/-- C4 witness: the concrete one-batch file session produces the stream
bytes followed by the footer block. -/
theorem c4_witness :
    runFileSession ⟨[], none, true⟩ [⟨[97], 0, true⟩]
        [⟨[⟨[97], 0, true⟩], 2, [[true, false]], [[5, 6]]⟩] =
      some ⟨[] ++ (streamBytes [⟨[97], 0, true⟩]
          [⟨[⟨[97], 0, true⟩], 2, [[true, false]], [[5, 6]]⟩] ++
        footerBlock [⟨[97], 0, true⟩]
          (expectedIndex ([] ++ schemaMessage [⟨[97], 0, true⟩]).length
            [⟨[⟨[97], 0, true⟩], 2, [[true, false]], [[5, 6]]⟩])), none, true⟩ ∧
    (expectedIndex ([] ++ schemaMessage [⟨[97], 0, true⟩]).length
      [⟨[⟨[97], 0, true⟩], 2, [[true, false]], [[5, 6]]⟩]).length = 1 :=
  ⟨(c4_file_mode_footer [] [⟨[97], 0, true⟩]
      [⟨[⟨[97], 0, true⟩], 2, [[true, false]], [[5, 6]]⟩] (by decide) (by decide)).1,
   (c4_file_mode_footer [] [⟨[97], 0, true⟩]
      [⟨[⟨[97], 0, true⟩], 2, [[true, false]], [[5, 6]]⟩] (by decide) (by decide)).2.1⟩

/-- C5: every message written by either mode is framed as the int32
metadata length, the metadata padded to an 8-byte boundary, then the body
padded to an 8-byte boundary, and the end-of-stream marker is exactly a
message whose metadata length field is zero. -/
theorem c5_wire_layout (meta body : List Nat) (s : Schema) (b : RecordBatch) :
    encodeMessage meta body = int32Bytes meta.length ++ (pad8 meta ++ pad8 body) ∧
    pad8 meta = meta ++ List.replicate ((8 - meta.length % 8) % 8) 0 ∧
    8 ∣ (pad8 meta).length ∧ 8 ∣ (pad8 body).length ∧
    (meta.length < 4294967296 →
      readInt32 (encodeMessage meta body) = meta.length) ∧
    schemaMessage s = encodeMessage (encodeSchema s) [] ∧
    batchMessage b = encodeMessage (recordBatchMeta b) (recordBatchBody b) ∧
    eosMessage = encodeMessage [] [] ∧
    readInt32 eosMessage = 0 := by
  refine ⟨by simp [encodeMessage, List.append_assoc], rfl, dvd_length_pad8 _,
    dvd_length_pad8 _, ?_, rfl, rfl, rfl, rfl⟩
  intro hlt
  rw [encodeMessage, List.append_assoc, readInt32_int32Bytes, Nat.mod_eq_of_lt hlt]

/-- C5 witness: the metadata length field of a concrete message reads back
as the metadata length. -/
theorem c5_witness : readInt32 (encodeMessage [9] [1, 2]) = [9].length :=
  (c5_wire_layout [9] [1, 2] [] ⟨[], 0, [], []⟩).2.2.2.2.1 (by decide)

/-- C6: encoding a record batch into its framed message and decoding that
message against the stream schema returns a batch identical to the original
in schema, row count, null bitmaps and buffer contents. -/
theorem c6_roundtrip (b : RecordBatch)
    (hwf : b.nullBitmaps.length = b.buffers.length)
    (hlen : (recordBatchMeta b).length < 4294967296) :
    decodeBatchMessage b.schema (batchMessage b) = some b :=
  decode_encode_batch b hwf hlen

/-- C6 witness: a concrete two-row batch round-trips through the message
format. -/
theorem c6_witness :
    decodeBatchMessage [⟨[97], 0, true⟩]
        (batchMessage ⟨[⟨[97], 0, true⟩], 2, [[true, false]], [[5, 6]]⟩) =
      some ⟨[⟨[97], 0, true⟩], 2, [[true, false]], [[5, 6]]⟩ :=
  c6_roundtrip ⟨[⟨[97], 0, true⟩], 2, [[true, false]], [[5, 6]]⟩
    (by decide) (by decide)

/-- C7: the constructor returns a writer exactly when it reports no error;
on success the returned handle has the schema bound with the schema message
already emitted; an empty schema yields an invalid-argument error and an
untouched sink; a failing initial write yields an I/O error and an
untouched sink. -/
theorem c7_constructor_contract (sink : Sink) (s : Schema) :
    ((garrow_stream_writer_new sink s).1.1.isSome ↔
      (garrow_stream_writer_new sink s).1.2 = none) ∧
    (∀ h1, (garrow_stream_writer_new sink s).1.1 = some h1 →
      h1.stream_writer = IpcWriter.stream ⟨s, false⟩ ∧
      (garrow_stream_writer_new sink s).2 =
        ⟨sink.bytes ++ schemaMessage s, sink.capacity, sink.seekable⟩) ∧
    (s = [] → garrow_stream_writer_new sink s =
      ((none, some WError.InvalidArgument), sink)) ∧
    (∀ c, sink.capacity = some c →
      c < sink.bytes.length + (schemaMessage s).length → s ≠ [] →
      garrow_stream_writer_new sink s = ((none, some WError.IOError), sink)) := by
  refine ⟨?_, ?_, ?_, ?_⟩
  · rcases hres : streamWriterOpen sink s with ⟨res, s1⟩
    cases res <;> simp [garrow_stream_writer_new, hres]
  · intro h1 hh
    rcases hres : streamWriterOpen sink s with ⟨res, s1⟩
    cases res with
    | error e => simp [garrow_stream_writer_new, hres] at hh
    | ok w =>
      simp only [garrow_stream_writer_new, hres, garrow_stream_writer_new_raw] at hh ⊢
      injection hh with hh1
      unfold streamWriterOpen at hres
      by_cases hs : s = []
      · simp [hs] at hres
      · rw [if_neg hs] at hres
        rcases hw : sink.write (schemaMessage s) with ⟨wres, s2⟩
        simp only [hw] at hres
        cases wres with
        | ok u =>
          injection hres with ha hb
          injection ha with ha1
          refine ⟨?_, ?_⟩
          · rw [← hh1, ← ha1]
          · rw [← hb]
            exact sink_write_ok sink (schemaMessage s) u s2 hw
        | error e => simp at hres
  · intro hs
    subst hs
    simp [garrow_stream_writer_new, streamWriterOpen]
  · intro c hcap hlt hs
    have hnle : ¬(sink.bytes.length + (schemaMessage s).length ≤ c) := by omega
    simp [garrow_stream_writer_new, streamWriterOpen, hs, Sink.write, hcap, hnle]

/-- C7 witness: constructing against the empty schema reports an
invalid-argument error, returns no writer, and leaves the sink unchanged. -/
theorem c7_witness :
    garrow_stream_writer_new ⟨[], none, true⟩ [] =
      ((none, some WError.InvalidArgument), ⟨[], none, true⟩) :=
  (c7_constructor_contract ⟨[], none, true⟩ []).2.2.1 rfl

/-- C8: the schema is bound once at construction and no later write or
close changes the bound schema carried by the wrapped writer. -/
theorem c8_schema_immutable (h : GArrowStreamWriter) (sink : Sink)
    (b : RecordBatch) (s : Schema) (h0 : GArrowStreamWriter) :
    ((garrow_stream_writer_new sink s).1.1 = some h0 →
      h0.stream_writer.schema = s) ∧
    (garrow_stream_writer_write_record_batch h sink b).2.1.stream_writer.schema =
      h.stream_writer.schema ∧
    (garrow_stream_writer_close h sink).2.1.stream_writer.schema =
      h.stream_writer.schema :=
  ⟨garrow_new_some_schema sink s h0, garrow_write_schema h sink b,
   garrow_close_schema h sink⟩

/-- C8 witness: the handle returned by a concrete construction carries the
requested schema. -/
theorem c8_witness :
    (⟨IpcWriter.stream ⟨[⟨[97], 0, true⟩], false⟩⟩ :
        GArrowStreamWriter).stream_writer.schema = [⟨[97], 0, true⟩] :=
  (c8_schema_immutable ⟨IpcWriter.stream ⟨[⟨[97], 0, true⟩], true⟩⟩
    ⟨[], none, true⟩ ⟨[], 0, [], []⟩ [⟨[97], 0, true⟩]
    ⟨IpcWriter.stream ⟨[⟨[97], 0, true⟩], false⟩⟩).1 (by decide)

/-- C9: finalizing a writer performs no write and no flush on the sink, and
a session dropped without close leaves on the sink exactly the schema
message and the batch messages written before the drop, with no
end-of-stream marker. -/
theorem c9_drop_without_close (h : GArrowStreamWriter) (sink : Sink)
    (bytes : List Nat) (seek : Bool) (s : Schema) (bs : List RecordBatch) :
    garrow_stream_writer_finalize h sink = sink ∧
    (s ≠ [] → (∀ b ∈ bs, b.schema = s) →
      runAbortSession ⟨bytes, none, seek⟩ s bs =
        some ⟨bytes ++ (schemaMessage s ++ (bs.map batchMessage).flatten),
          none, seek⟩) :=
  ⟨rfl, fun hs hconf => runAbortSession_eq bytes seek s bs hs hconf⟩

/-- C9 witness: a concrete aborted session holds the schema message and one
batch message and nothing else. -/
theorem c9_witness :
    runAbortSession ⟨[], none, true⟩ [⟨[97], 0, true⟩]
        [⟨[⟨[97], 0, true⟩], 2, [[true, false]], [[5, 6]]⟩] =
      some ⟨[] ++ (schemaMessage [⟨[97], 0, true⟩] ++
        ([⟨[⟨[97], 0, true⟩], 2, [[true, false]], [[5, 6]]⟩].map
          batchMessage).flatten), none, true⟩ :=
  (c9_drop_without_close ⟨IpcWriter.stream ⟨[⟨[97], 0, true⟩], false⟩⟩
    ⟨[], none, true⟩ [] true [⟨[97], 0, true⟩]
    [⟨[⟨[97], 0, true⟩], 2, [[true, false]], [[5, 6]]⟩]).2 (by decide) (by decide)

/-- C10: the file-writer downcast reads the stream-writer slot and checks
the stored writer at run time: a stored plain stream writer yields a null
result, a stored file writer is returned, and a non-null result always
comes from a stored file writer. -/
theorem c10_checked_downcast (sw : StreamWriter) (fw : FileWriter)
    (h : GArrowFileWriter) :
    garrow_file_writer_get_raw ⟨⟨IpcWriter.stream sw⟩⟩ = none ∧
    garrow_file_writer_get_raw (garrow_file_writer_new_raw fw) = some fw ∧
    (∀ w, garrow_file_writer_get_raw h = some w →
      h.parent_instance.stream_writer = IpcWriter.file w) := by
  refine ⟨rfl, rfl, ?_⟩
  intro w hw
  obtain ⟨⟨slot⟩⟩ := h
  cases slot with
  | stream sw2 =>
    simp [garrow_file_writer_get_raw, garrow_stream_writer_get_raw] at hw
  | file fw2 =>
    simp only [garrow_file_writer_get_raw, garrow_stream_writer_get_raw] at hw
    injection hw with hw1
    rw [hw1]

/-- C10 witness: at a concrete handle whose slot holds a file writer, a
non-null downcast result pins down the stored writer. -/
theorem c10_witness :
    (⟨⟨IpcWriter.file ⟨[], false, []⟩⟩⟩ :
        GArrowFileWriter).parent_instance.stream_writer =
      IpcWriter.file ⟨[], false, []⟩ :=
  (c10_checked_downcast ⟨[], false⟩ ⟨[], false, []⟩
    ⟨⟨IpcWriter.file ⟨[], false, []⟩⟩⟩).2.2 ⟨[], false, []⟩ rfl

end ArrowGlib
